import Mathlib

/-!
Verification of the cloud-agent deployment tool: a shallow embedding, in
Lean 4, of the configuration derivation, agent registry, VM lifecycle and
remote-access logic of the Rust sources, together with theorems settling
the specified properties.

Pure string computations are translated directly from the Rust code; the
effectful operations (subprocess calls, file-existence probes, stdin) are
modelled by passing their outcomes in explicitly and recording which
external processes each operation would spawn. Lowercasing is modelled at
the character level by the standard library basic-latin `Char.toLower`.
-/

namespace CloudAgent

/-- Mirrors the error enum `CloudAgentError` of `src/error.rs`. The extra
`Generic` constructor stands for the uncategorized errors the code builds
with the `anyhow` macro. -/
inductive CloudAgentError where
  | VmNotFound (name : String)
  | VmAlreadyExists (name : String)
  | SshKeyNotFound (msg : String)
  | AgentNotFound (name : String) (available : String)
  | IpDetectionFailed
  | GcpProjectNotConfigured
  | TerraformFailed (msg : String)
  | GitFailed (msg : String)
  | SshFailed (msg : String)
  | AgentNotLoggedIn (name : String) (remediation : String)
  | InvalidRepoUrl (url : String)
  | ConfigError (msg : String)
  | Generic (msg : String)
  deriving DecidableEq

/-- Rust `str::replace` specialised to a single-character pattern and a
single-character replacement, the only form used in `src/config.rs`. -/
def rustReplaceChar (s : String) (a b : Char) : String :=
  ⟨s.data.map (fun c => if c = a then b else c)⟩

/-- Rust `str::to_lowercase`, modelled character by character with the
basic-latin lowercasing `Char.toLower`. -/
def rustToLowercase (s : String) : String :=
  ⟨s.data.map Char.toLower⟩

/-- Rust `str::trim`: remove leading and trailing whitespace. -/
def rustTrim (s : String) : String :=
  ⟨((s.data.dropWhile Char.isWhitespace).reverse.dropWhile Char.isWhitespace).reverse⟩

/-- Mirrors the `Config` struct of `src/config.rs` (paths and tokens are
kept as strings). -/
structure Config where
  agent : String
  project_id : String
  region : String
  zone : String
  machine_type : String
  vm_name : String
  owner : String
  ssh_username : String
  skip_deletion : String
  cluster_name : Option String
  cluster_zone : String
  ssh_key : Option String
  github_token : Option String
  permissions : List String
  additional_ip : Option String
  company : Option String
  deriving DecidableEq

/-- The normalisation applied by `derive_owner` in `src/config.rs` (line 140
for the base, line 143 for the company suffix): replace `.` by `_`, replace
`-` by `_`, then lowercase. -/
def normalizeOwnerPart (s : String) : String :=
  rustToLowercase (rustReplaceChar (rustReplaceChar s '.' '_') '-' '_')

/-- `derive_owner` from `src/config.rs` (lines 131-148), with the base
identity already resolved to a string (the Rust code falls back to the USER
environment variable when no explicit username is given). -/
def derive_owner (base : String) (company : Option String) : String :=
  let owner := normalizeOwnerPart base
  match company with
  | some comp => owner ++ "_" ++ normalizeOwnerPart comp
  | none => owner

/-- `derive_vm_name` from `src/config.rs` (lines 151-153). -/
def derive_vm_name (owner : String) : String :=
  rustReplaceChar owner '_' '-' ++ "-cloud-agent"

/-- The `ssh_username` computation of `Config::from_args`
(`src/config.rs` line 76). -/
def ssh_username_of (owner : String) : String :=
  rustReplaceChar owner '_' '-'

/-- Evaluating `Char.ofNat` at a code point below the surrogate range. -/
theorem toNat_ofNat_valid {n : Nat} (h : n < 0xd800) : (Char.ofNat n).toNat = n := by
  have hv : Nat.isValidChar n := Or.inl h
  simp [Char.ofNat, hv, Char.ofNatAux, Char.toNat]
  rfl

/-- Characters are equal exactly when their code points are. -/
theorem toNat_eq_iff (c d : Char) : c = d ↔ c.toNat = d.toNat := by
  constructor
  · intro h; rw [h]
  · intro h
    exact Char.eq_of_val_eq (UInt32.ext h)

/-- Basic-latin lowercasing is idempotent. -/
theorem toLower_toLower (c : Char) : c.toLower.toLower = c.toLower := by
  by_cases h : c.toNat ≥ 65 ∧ c.toNat ≤ 90
  · have hlt : c.toNat + 32 < 0xd800 := by omega
    have h2 : ¬ ((Char.ofNat (c.toNat + 32)).toNat ≥ 65 ∧ (Char.ofNat (c.toNat + 32)).toNat ≤ 90) := by
      rw [toNat_ofNat_valid hlt]; omega
    simp [Char.toLower, h, h2]
  · simp [Char.toLower, h]

/-- Lowercasing leaves a character outside the upper-case latin range alone. -/
theorem toLower_eq_self_of_not_upper (c : Char) (h : ¬ (c.toNat ≥ 65 ∧ c.toNat ≤ 90)) :
    c.toLower = c := by
  simp [Char.toLower, h]

/-- Lowercasing shifts an upper-case latin code point by 32. -/
theorem toLower_toNat_of_upper (c : Char) (h : c.toNat ≥ 65 ∧ c.toNat ≤ 90) :
    c.toLower.toNat = c.toNat + 32 := by
  simp [Char.toLower, h]
  exact toNat_ofNat_valid (by omega)

/-- The character-level action of `normalizeOwnerPart`: the composition of
the two separator replacements and lowercasing. -/
def normChar (c : Char) : Char :=
  Char.toLower (if (if c = '.' then '_' else c) = '-' then '_' else if c = '.' then '_' else c)

/-- `normalizeOwnerPart` maps `normChar` over the characters. -/
theorem normalizeOwnerPart_eq_map (s : String) :
    normalizeOwnerPart s = ⟨s.data.map normChar⟩ := by
  unfold normalizeOwnerPart rustToLowercase rustReplaceChar normChar
  simp [List.map_map]
  rfl

/-- The character-level normalisation is idempotent. -/
theorem normChar_idem (c : Char) : normChar (normChar c) = normChar c := by
  by_cases hdot : c = '.'
  · subst hdot; decide
  by_cases hdash : c = '-'
  · subst hdash; decide
  have h1 : normChar c = c.toLower := by
    simp [normChar, hdot, hdash]
  rw [h1]
  by_cases hup : c.toNat ≥ 65 ∧ c.toNat ≤ 90
  · have ht : c.toLower.toNat = c.toNat + 32 := toLower_toNat_of_upper c hup
    have hd46 : ('.' : Char).toNat = 46 := rfl
    have hd45 : ('-' : Char).toNat = 45 := rfl
    have hne1 : c.toLower ≠ '.' := by
      intro h
      have h2 := (toNat_eq_iff _ _).mp h
      rw [ht, hd46] at h2
      omega
    have hne2 : c.toLower ≠ '-' := by
      intro h
      have h2 := (toNat_eq_iff _ _).mp h
      rw [ht, hd45] at h2
      omega
    simpa [normChar, hne1, hne2] using toLower_toLower c
  · have hlc : c.toLower = c := toLower_eq_self_of_not_upper c hup
    rw [hlc]
    exact h1.trans hlc

/-- Mapping an idempotent character function twice equals mapping it once. -/
theorem map_idem_of_idem {f : Char → Char} (hf : ∀ c, f (f c) = f c) :
    ∀ l : List Char, (l.map f).map f = l.map f
  | [] => rfl
  | c :: t => by simp [hf c, map_idem_of_idem hf t]

/-- Owner normalisation is idempotent. -/
theorem normalizeOwnerPart_idem (s : String) :
    normalizeOwnerPart (normalizeOwnerPart s) = normalizeOwnerPart s := by
  rw [normalizeOwnerPart_eq_map s, normalizeOwnerPart_eq_map]
  exact congrArg String.mk (map_idem_of_idem normChar_idem _)

/-- C1: owner normalisation is idempotent; mixed-case and separator variants
of one identity normalise to the same owner (`Jane.Doe` and `jane-doe` both
give `jane_doe`); with an organisation override, `derive_owner` is the
normalised base, an underscore, and the organisation normalised the same
way; without one it is just the normalised base. -/
theorem derive_owner_normalization_spec :
    (∀ s : String, normalizeOwnerPart (normalizeOwnerPart s) = normalizeOwnerPart s)
    ∧ normalizeOwnerPart "Jane.Doe" = "jane_doe"
    ∧ normalizeOwnerPart "jane-doe" = "jane_doe"
    ∧ (∀ base org : String,
        derive_owner base (some org) = normalizeOwnerPart base ++ "_" ++ normalizeOwnerPart org)
    ∧ (∀ base : String, derive_owner base none = normalizeOwnerPart base) :=
  ⟨normalizeOwnerPart_idem, by decide, by decide, fun _ _ => rfl, fun _ => rfl⟩

/-- C2: the VM name and SSH username are the stated pure functions of the
owner: the VM name is the owner with `_` replaced by `-` followed by
`-cloud-agent`, the SSH username is the owner with `_` replaced by `-`;
owner `jane_doe` gives VM name `jane-doe-cloud-agent` and SSH username
`jane-doe`. -/
theorem vm_name_ssh_username_spec :
    (∀ owner : String,
        derive_vm_name owner = rustReplaceChar owner '_' '-' ++ "-cloud-agent"
        ∧ ssh_username_of owner = rustReplaceChar owner '_' '-')
    ∧ derive_vm_name "jane_doe" = "jane-doe-cloud-agent"
    ∧ ssh_username_of "jane_doe" = "jane-doe" :=
  ⟨fun _ => ⟨rfl, rfl⟩, by decide, by decide⟩

/-- Rust `url.rsplit(sep).next()`: the substring after the final separator,
or the whole string when the separator does not occur (`rsplit` always
yields at least one piece, so `next()` never fails). -/
def rsplitFirst (l : List Char) (sep : Char) : List Char :=
  l.foldl (fun acc c => if c = sep then [] else acc ++ [c]) []

/-- Stripping every leading repetition of the reversed pattern `.git` from a
reversed character list. -/
def trimGitRev : List Char → List Char
  | 't' :: 'i' :: 'g' :: '.' :: rest => trimGitRev rest
  | l => l

/-- Rust `str::trim_end_matches(".git")`: remove all trailing repetitions
of `.git`. -/
def trimEndGit (l : List Char) : List Char :=
  (trimGitRev l.reverse).reverse

/-- `extract_repo_name` from `src/utils.rs` (lines 99-115): last
`/`-separated segment, trailing `.git` removed, failing as an invalid
repository URL when the result is empty. -/
def extract_repo_name (url : String) : Except CloudAgentError String :=
  let name := trimEndGit (rsplitFirst url.data '/')
  if name = [] then .error (.InvalidRepoUrl url)
  else .ok ⟨name⟩

/-- C3 counterexample: the URL `abc` contains no path segment separator,
yet extraction succeeds with `abc` instead of failing, refuting the claim
that every URL without a separator is rejected. -/
theorem extract_repo_name_no_separator_counterexample :
    ('/' ∉ "abc".data) ∧ extract_repo_name "abc" = .ok "abc" :=
  ⟨by decide, rfl⟩

/-- C3 amended: extraction returns the last `/`-separated segment with the
trailing `.git` suffix removed — the three example URLs all yield `repo` —
and it fails with the invalid-repository-URL error exactly when that
extracted segment is empty after trimming; a URL without a separator is
treated as one single segment and succeeds whenever that segment does not
trim to the empty string. -/
theorem extract_repo_name_spec :
    extract_repo_name "git@github.com:org/repo.git" = .ok "repo"
    ∧ extract_repo_name "https://github.com/org/repo.git" = .ok "repo"
    ∧ extract_repo_name "https://github.com/org/repo" = .ok "repo"
    ∧ (∀ url : String, trimEndGit (rsplitFirst url.data '/') = [] →
        extract_repo_name url = .error (.InvalidRepoUrl url))
    ∧ (∀ url : String, trimEndGit (rsplitFirst url.data '/') ≠ [] →
        extract_repo_name url = .ok ⟨trimEndGit (rsplitFirst url.data '/')⟩) := by
  refine ⟨rfl, rfl, rfl, ?_, ?_⟩ <;> intro url h <;> simp [extract_repo_name, h]

/-- Closed instantiation of the amended C3 theorem: the URL `/.git` has an
empty extracted name and is rejected as invalid. -/
theorem extract_repo_name_spec_witness :
    trimEndGit (rsplitFirst "/.git".data '/') = []
    ∧ extract_repo_name "/.git" = .error (.InvalidRepoUrl "/.git") :=
  ⟨by decide, extract_repo_name_spec.2.2.2.1 "/.git" (by decide)⟩

/-- Rust `str::split` on a single-character separator: the list of pieces
between occurrences of the separator (`"".split(sep)` is one empty piece). -/
def splitOnChar (sep : Char) : List Char → List (List Char)
  | [] => [[]]
  | c :: rest =>
    match splitOnChar sep rest with
    | [] => [[]]
    | h :: t => if c = sep then [] :: h :: t else (c :: h) :: t

/-- Rust `str::parse::<u8>()`: an optional leading plus sign, then at least
one ASCII digit, with a value of at most 255; anything else fails. -/
def parse_u8 (s : List Char) : Option Nat :=
  let digits := match s with
    | '+' :: rest => rest
    | _ => s
  if digits = [] then none
  else if digits.all Char.isDigit then
    let v := digits.foldl (fun acc c => acc * 10 + (c.toNat - 48)) 0
    if v ≤ 255 then some v else none
  else none

/-- `is_valid_ipv4` from `src/utils.rs` (lines 60-64): split on dots, keep
the pieces that parse as `u8`, accept when exactly four do. -/
def is_valid_ipv4 (ip : String) : Bool :=
  ((splitOnChar '.' ip.data).filterMap parse_u8).length == 4

/-- C10: the IPv4 check counts only the dot-separated segments that parse
as 8-bit integers and accepts whenever exactly four do, so the five-segment
string `x.1.2.3.4` is accepted even though it is not a dotted quad; the
check still accepts `192.168.1.1` and rejects `256.1.1.1` and
`not.an.ip.address`. -/
theorem is_valid_ipv4_counts_parsed_segments :
    (∀ ip : String,
        is_valid_ipv4 ip = (((splitOnChar '.' ip.data).filterMap parse_u8).length == 4))
    ∧ is_valid_ipv4 "x.1.2.3.4" = true
    ∧ (splitOnChar '.' "x.1.2.3.4".data).length = 5
    ∧ is_valid_ipv4 "192.168.1.1" = true
    ∧ is_valid_ipv4 "256.1.1.1" = false
    ∧ is_valid_ipv4 "not.an.ip.address" = false :=
  ⟨fun _ => rfl, by decide, by decide, by decide, by decide, by decide⟩

/-- `list_agents` from `src/agents/mod.rs` (lines 109-111). -/
def list_agents : List String :=
  ["auggie", "claude", "codex"]

/-- The three compiled-in agent implementations selected by
`AgentManager::new`. -/
inductive AgentKind where
  | auggie | claude | codex
  deriving DecidableEq

/-- The agent selection of `AgentManager::new` (`src/agents/mod.rs` lines
51-63): match the configured name, otherwise fail carrying the literal
list of available agents from the source. -/
def agent_lookup (name : String) : Except CloudAgentError AgentKind :=
  if name = "auggie" then .ok .auggie
  else if name = "claude" then .ok .claude
  else if name = "codex" then .ok .codex
  else .error (.AgentNotFound name "auggie, claude, codex")

/-- C5: for every identifier outside the registry, lookup fails with an
agent-not-found error whose valid-set is exactly the registry enumeration
returned by `list_agents`, joined as in the source. -/
theorem agent_lookup_unknown (name : String) (h : name ∉ list_agents) :
    agent_lookup name = .error (.AgentNotFound name (String.intercalate ", " list_agents)) := by
  simp only [list_agents, List.mem_cons, List.not_mem_nil, or_false, not_or] at h
  obtain ⟨h1, h2, h3⟩ := h
  simp [agent_lookup, h1, h2, h3]
  rfl

/-- Closed instantiation of the C5 theorem at the unknown identifier
`cursor`. -/
theorem agent_lookup_unknown_witness :
    "cursor" ∉ list_agents
    ∧ agent_lookup "cursor"
        = .error (.AgentNotFound "cursor" (String.intercalate ", " list_agents)) :=
  ⟨by decide, agent_lookup_unknown "cursor" (by decide)⟩

/-- An agent descriptor: the static data of one `Agent` trait
implementation (`src/agents/mod.rs`), with the results of its two
environment probes (`command_exists` and the credential-file existence
check) supplied as booleans. -/
structure AgentDescr where
  display_name : String
  command : String
  install_command : String
  check_local : Bool
  check_logged_in : Bool
  login_instructions : String
  remote_credentials_path : String
  deriving DecidableEq

/-- The `Auggie` implementation (`src/agents/auggie.rs`). -/
def auggieAgent (localOk loggedIn : Bool) : AgentDescr where
  display_name := "Auggie (Augment Code)"
  command := "auggie"
  install_command := "npm install -g @augmentcode/auggie"
  check_local := localOk
  check_logged_in := loggedIn
  login_instructions := "Run \x27auggie login\x27 to authenticate"
  remote_credentials_path := "~/.augment/session.json"

/-- The `Claude` implementation (`src/agents/claude.rs`). -/
def claudeAgent (localOk loggedIn : Bool) : AgentDescr where
  display_name := "Claude Code (Anthropic)"
  command := "claude"
  install_command := "npm install -g @anthropic-ai/claude-code"
  check_local := localOk
  check_logged_in := loggedIn
  login_instructions := "Run \x27claude\x27 to authenticate"
  remote_credentials_path := "~/.claude.json"

/-- The `Codex` implementation (`src/agents/codex.rs`). -/
def codexAgent (localOk loggedIn : Bool) : AgentDescr where
  display_name := "Codex (OpenAI)"
  command := "codex"
  install_command := "npm install -g @openai/codex"
  check_local := localOk
  check_logged_in := loggedIn
  login_instructions := "Run \x27codex\x27 to authenticate"
  remote_credentials_path := "~/.codex/config.toml"

/-- `AgentManager::check_prerequisites` (`src/agents/mod.rs` lines 66-85):
fail with install instructions when the local probe is false, else fail
with login instructions when the login probe is false, else succeed. -/
def check_prerequisites (a : AgentDescr) : Except CloudAgentError Unit :=
  if !a.check_local then
    .error (.AgentNotLoggedIn a.display_name ("Install it with: " ++ a.install_command))
  else if !a.check_logged_in then
    .error (.AgentNotLoggedIn a.display_name a.login_instructions)
  else .ok ()

/-- C6: every valid identifier resolves; the prerequisite check tests
`check_local` first and `check_logged_in` second, short-circuiting: when
`check_local` is false the result is the install-instructions error
whatever value `check_logged_in` has (it is not consulted); when
`check_local` holds and `check_logged_in` fails the result is the
login-instructions error; when both hold the check succeeds. -/
theorem check_prerequisites_spec (a : AgentDescr) :
    (agent_lookup "auggie" = .ok .auggie
      ∧ agent_lookup "claude" = .ok .claude
      ∧ agent_lookup "codex" = .ok .codex)
    ∧ (a.check_local = false →
        ∀ b : Bool,
          check_prerequisites { a with check_logged_in := b }
            = .error (.AgentNotLoggedIn a.display_name
                ("Install it with: " ++ a.install_command)))
    ∧ (a.check_local = true → a.check_logged_in = false →
        check_prerequisites a = .error (.AgentNotLoggedIn a.display_name a.login_instructions))
    ∧ (a.check_local = true → a.check_logged_in = true →
        check_prerequisites a = .ok ()) := by
  refine ⟨⟨rfl, rfl, rfl⟩, ?_, ?_, ?_⟩
  · intro h b
    simp [check_prerequisites, h]
  · intro h1 h2
    simp [check_prerequisites, h1, h2]
  · intro h1 h2
    simp [check_prerequisites, h1, h2]

/-- Closed instantiation of the C6 theorem on the Claude descriptor: not
installed fails with install instructions whether or not logged in,
installed but not logged in fails with login instructions, and both
probes passing succeeds. -/
theorem check_prerequisites_spec_witness :
    check_prerequisites (claudeAgent false true)
      = .error (.AgentNotLoggedIn "Claude Code (Anthropic)"
          ("Install it with: " ++ "npm install -g @anthropic-ai/claude-code"))
    ∧ check_prerequisites (claudeAgent false false)
      = .error (.AgentNotLoggedIn "Claude Code (Anthropic)"
          ("Install it with: " ++ "npm install -g @anthropic-ai/claude-code"))
    ∧ check_prerequisites (claudeAgent true false)
      = .error (.AgentNotLoggedIn "Claude Code (Anthropic)" "Run \x27claude\x27 to authenticate")
    ∧ check_prerequisites (claudeAgent true true) = .ok () :=
  ⟨(check_prerequisites_spec (claudeAgent false true)).2.1 rfl true,
   (check_prerequisites_spec (claudeAgent false false)).2.1 rfl false,
   (check_prerequisites_spec (claudeAgent true false)).2.2.1 rfl rfl,
   (check_prerequisites_spec (claudeAgent true true)).2.2.2 rfl rfl⟩

/-- A concrete configuration used to instantiate the lifecycle theorems,
derived from the owner `jane_doe` with the default CLI values. -/
def sampleConfig : Config where
  agent := "auggie"
  project_id := "example-project"
  region := "us-central1"
  zone := "us-central1-a"
  machine_type := "n2-standard-4"
  vm_name := derive_vm_name "jane_doe"
  owner := "jane_doe"
  ssh_username := ssh_username_of "jane_doe"
  skip_deletion := "yes"
  cluster_name := none
  cluster_zone := "us-central1-a"
  ssh_key := none
  github_token := none
  permissions := []
  additional_ip := none
  company := none

/-- The external observations `VmManager::get_vm_ip` depends on: whether the
`terraform.tfstate` file exists, the stdout of `terraform output -raw
cloud_agent_ip` when that command succeeds, and the stdout of `gcloud
compute instances describe` when that command succeeds (`none` means the
command exited nonzero). -/
structure VmIpEnv where
  tfstateExists : Bool
  terraformOutputIp : Option String
  gcloudDescribe : Option String
  deriving DecidableEq

/-- The state-file arm of `VmManager::get_vm_ip` (`src/gcp.rs` lines
166-180): the trimmed terraform output, provided the state file exists, the
command succeeded and the trimmed output is non-empty. -/
def tf_state_ip (env : VmIpEnv) : Option String :=
  if env.tfstateExists then
    match env.terraformOutputIp with
    | some out =>
      let ip := rustTrim out
      if ip ≠ "" then some ip else none
    | none => none
  else none

/-- `VmManager::get_vm_ip` (`src/gcp.rs` lines 165-202): prefer the state
file, then fall back to the live query; a failing live query is the
categorized VM-not-found error, a succeeding live query with empty output
is an uncategorized error. -/
def get_vm_ip (cfg : Config) (env : VmIpEnv) : Except CloudAgentError String :=
  match tf_state_ip env with
  | some ip => .ok ip
  | none =>
    match env.gcloudDescribe with
    | none => .error (.VmNotFound cfg.vm_name)
    | some out =>
      let ip := rustTrim out
      if ip = "" then .error (.Generic "Could not determine VM IP address")
      else .ok ip

/-- C4 counterexample: with no state file and a live query that succeeds
but returns an empty address, the lookup fails with the uncategorized
could-not-determine error, not with the VM-not-found error the claim
requires for that case. -/
theorem get_vm_ip_empty_live_counterexample :
    get_vm_ip sampleConfig ⟨false, none, some ""⟩
      = .error (.Generic "Could not determine VM IP address")
    ∧ get_vm_ip sampleConfig ⟨false, none, some ""⟩
      ≠ .error (.VmNotFound sampleConfig.vm_name) :=
  ⟨rfl, fun h => CloudAgentError.noConfusion (Except.error.inj h)⟩

/-- C4 amended: address lookup tries the provisioning-tool state file first
and the live query second; a non-empty state-file address is returned
without consulting the live query; when the state file yields nothing and
the live query command fails, lookup fails with the categorized
VM-not-found error carrying the configured VM name; when the live query
succeeds but its trimmed output is empty, lookup fails with the
uncategorized could-not-determine-address error instead; otherwise it
returns the trimmed live address. -/
theorem get_vm_ip_spec (cfg : Config) (env : VmIpEnv) :
    (∀ ip, tf_state_ip env = some ip →
        ∀ g : Option String, get_vm_ip cfg { env with gcloudDescribe := g } = .ok ip)
    ∧ (tf_state_ip env = none → env.gcloudDescribe = none →
        get_vm_ip cfg env = .error (.VmNotFound cfg.vm_name))
    ∧ (∀ out, tf_state_ip env = none → env.gcloudDescribe = some out → rustTrim out = "" →
        get_vm_ip cfg env = .error (.Generic "Could not determine VM IP address"))
    ∧ (∀ out, tf_state_ip env = none → env.gcloudDescribe = some out → rustTrim out ≠ "" →
        get_vm_ip cfg env = .ok (rustTrim out)) := by
  have htf : ∀ g : Option String, tf_state_ip { env with gcloudDescribe := g } = tf_state_ip env := by
    intro g; rfl
  refine ⟨?_, ?_, ?_, ?_⟩
  · intro ip h g
    simp [get_vm_ip, htf, h]
  · intro h1 h2
    simp [get_vm_ip, h1, h2]
  · intro out h1 h2 h3
    simp [get_vm_ip, h1, h2, h3]
  · intro out h1 h2 h3
    simp [get_vm_ip, h1, h2, h3]

/-- Closed instantiation of the amended C4 theorem: a state-file hit is
returned as-is even when the live query would fail, and with no state and a
failing live query the error is VM-not-found with the configured name. -/
theorem get_vm_ip_spec_witness :
    get_vm_ip sampleConfig ⟨true, some " 10.0.0.7 ", none⟩ = .ok "10.0.0.7"
    ∧ get_vm_ip sampleConfig ⟨false, none, none⟩
        = .error (.VmNotFound sampleConfig.vm_name) :=
  ⟨(get_vm_ip_spec sampleConfig ⟨true, some " 10.0.0.7 ", none⟩).1 "10.0.0.7" (by decide) none,
   (get_vm_ip_spec sampleConfig ⟨false, none, none⟩).2.1 rfl rfl⟩

/-- Rust `char::to_ascii_lowercase`. -/
def asciiLowerChar (c : Char) : Char :=
  if 65 ≤ c.toNat ∧ c.toNat ≤ 90 then Char.ofNat (c.toNat + 32) else c

/-- Rust `str::eq_ignore_ascii_case`. -/
def eqIgnoreAsciiCase (a b : String) : Bool :=
  a.data.map asciiLowerChar == b.data.map asciiLowerChar

/-- The destructive subprocess calls `VmManager::terminate` can make. -/
inductive TerminateCall where
  | terraformDestroy | gcloudDelete
  deriving DecidableEq

/-- The external observations `VmManager::terminate` depends on: the line
read from standard input at the confirmation prompt, whether the
`terraform.tfstate` file exists, and whether each destructive subprocess
would succeed. -/
structure TerminateEnv where
  confirmation : String
  tfstateExists : Bool
  destroySucceeds : Bool
  deleteSucceeds : Bool
  deriving DecidableEq

/-- `VmManager::terminate` (`src/gcp.rs` lines 91-137): its result together
with the destructive subprocess calls it performs. A trimmed confirmation
other than `y` (compared ignoring ASCII case) cancels with success; with
state present terraform destroy runs, otherwise the cloud delete runs. -/
def terminate (env : TerminateEnv) :
    Except CloudAgentError Unit × List TerminateCall :=
  if !(eqIgnoreAsciiCase (rustTrim env.confirmation) "y") then (.ok (), [])
  else if env.tfstateExists then
    if env.destroySucceeds then (.ok (), [.terraformDestroy])
    else (.error (.TerraformFailed "destroy failed"), [.terraformDestroy])
  else
    if env.deleteSucceeds then (.ok (), [.gcloudDelete])
    else (.error (.Generic "Failed to delete VM"), [.gcloudDelete])

/-- C7: every non-affirmative confirmation input (anything whose trimmed
form is not `y` ignoring ASCII case) makes terminate return success while
performing neither the terraform destroy nor the cloud instance delete. -/
theorem terminate_declined_no_destruction (env : TerminateEnv)
    (h : eqIgnoreAsciiCase (rustTrim env.confirmation) "y" = false) :
    terminate env = (.ok (), []) := by
  simp [terminate, h]

/-- Closed instantiation of the C7 theorem: answering `n` cancels with
success and an empty call list even though both subprocesses would have
succeeded. -/
theorem terminate_declined_no_destruction_witness :
    terminate ⟨"n", true, true, true⟩ = (.ok (), []) :=
  terminate_declined_no_destruction ⟨"n", true, true, true⟩ (by decide)

/-- The actions `VmManager::apply_terraform` can perform, in order:
regenerating `terraform.tfvars`, the provisioning-tool init phase, and its
apply phase. -/
inductive TfAction where
  | genTfvars | tfInit | tfApply
  deriving DecidableEq

/-- The external observations `VmManager::apply_terraform` depends on:
whether the `terraform.tfstate` file exists, the error of the tfvars
generation when it fails (IP detection or file IO), and whether the apply
subprocess succeeds. -/
structure ReapplyEnv where
  tfstateExists : Bool
  tfvarsGenError : Option CloudAgentError
  applySucceeds : Bool

/-- `VmManager::apply_terraform` (`src/gcp.rs` lines 235-263): its result
together with the ordered actions it performs. Without prior state it fails
with the directive error before doing anything; with state it regenerates
the variable file and runs the apply phase only. -/
def apply_terraform (env : ReapplyEnv) :
    Except CloudAgentError Unit × List TfAction :=
  if !env.tfstateExists then
    (.error (.Generic "No terraform state found. Create VM first with: ca <repo>"), [])
  else
    match env.tfvarsGenError with
    | some e => (.error e, [.genTfvars])
    | none =>
      if env.applySucceeds then (.ok (), [.genTfvars, .tfApply])
      else (.error (.TerraformFailed "apply failed"), [.genTfvars, .tfApply])

/-- C8: with the state file absent, re-apply fails with the directive
error pointing at the create path and performs no action at all; the init
phase is never run in any case; with the state file present the variable
file is regenerated, and when generation succeeds exactly the apply phase
follows it. -/
theorem apply_terraform_spec (env : ReapplyEnv) :
    (env.tfstateExists = false →
      apply_terraform env
        = (.error (.Generic "No terraform state found. Create VM first with: ca <repo>"), []))
    ∧ TfAction.tfInit ∉ (apply_terraform env).2
    ∧ (env.tfstateExists = true → TfAction.genTfvars ∈ (apply_terraform env).2)
    ∧ (env.tfstateExists = true → env.tfvarsGenError = none →
        (apply_terraform env).2 = [TfAction.genTfvars, TfAction.tfApply]) := by
  obtain ⟨st, ge, ap⟩ := env
  cases st <;> cases ge <;> cases ap <;> simp [apply_terraform]

/-- Closed instantiation of the C8 theorem: without state nothing runs and
the directive error is returned; with state and successful generation the
trace is exactly generation followed by apply. -/
theorem apply_terraform_spec_witness :
    apply_terraform ⟨false, none, true⟩
      = (.error (.Generic "No terraform state found. Create VM first with: ca <repo>"), [])
    ∧ (apply_terraform ⟨true, none, true⟩).2 = [TfAction.genTfvars, TfAction.tfApply] :=
  ⟨(apply_terraform_spec ⟨false, none, true⟩).1 rfl,
   (apply_terraform_spec ⟨true, none, true⟩).2.2.2 rfl rfl⟩

/-- The kinds of subprocess an `SshClient` operation can spawn. -/
inductive SpawnKind where
  | sshProc | scpProc
  deriving DecidableEq

/-- `SshClient::execute` (`src/ssh.rs` lines 26-46): `outcome` is the
result of the spawned ssh process (error carries its captured stderr,
success its captured stdout); the list records the processes spawned. -/
def ssh_execute (cfg : Config) (_vm_ip : String) (outcome : Except String String) :
    Except CloudAgentError String × List SpawnKind :=
  match cfg.ssh_key with
  | none => (.error (.SshKeyNotFound "No SSH key configured"), [])
  | some _ =>
    match outcome with
    | .error stderr => (.error (.SshFailed stderr), [.sshProc])
    | .ok stdout => (.ok (rustTrim stdout), [.sshProc])

/-- `SshClient::execute_streaming` (`src/ssh.rs` lines 49-68): output is
not captured; `status` is the display form of the exit status. -/
def ssh_execute_streaming (cfg : Config) (_vm_ip : String)
    (succeeded : Bool) (status : String) :
    Except CloudAgentError Unit × List SpawnKind :=
  match cfg.ssh_key with
  | none => (.error (.SshKeyNotFound "No SSH key configured"), [])
  | some _ =>
    if succeeded then (.ok (), [.sshProc])
    else (.error (.SshFailed ("Command failed with status: " ++ status)), [.sshProc])

/-- `SshClient::copy_to_vm` (`src/ssh.rs` lines 71-90). -/
def copy_to_vm (cfg : Config) (_vm_ip : String)
    (_local_path _remote_path : String) (succeeded : Bool) :
    Except CloudAgentError Unit × List SpawnKind :=
  match cfg.ssh_key with
  | none => (.error (.SshKeyNotFound "No SSH key configured"), [])
  | some _ =>
    if succeeded then (.ok (), [.scpProc])
    else (.error (.SshFailed "SCP failed"), [.scpProc])

/-- `SshClient::copy_from_vm` (`src/ssh.rs` lines 93-112). -/
def copy_from_vm (cfg : Config) (_vm_ip : String)
    (_remote_path _local_path : String) (succeeded : Bool) :
    Except CloudAgentError Unit × List SpawnKind :=
  match cfg.ssh_key with
  | none => (.error (.SshKeyNotFound "No SSH key configured"), [])
  | some _ =>
    if succeeded then (.ok (), [.scpProc])
    else (.error (.SshFailed "SCP failed"), [.scpProc])

/-- `SshClient::interactive_session` (`src/ssh.rs` lines 115-138). -/
def interactive_session (cfg : Config) (_vm_ip : String) (succeeded : Bool) :
    Except CloudAgentError Unit × List SpawnKind :=
  match cfg.ssh_key with
  | none => (.error (.SshKeyNotFound "No SSH key configured"), [])
  | some _ =>
    if succeeded then (.ok (), [.sshProc])
    else (.error (.SshFailed "SSH session failed"), [.sshProc])

/-- `SshClient::scp_with_prefix` (`src/ssh.rs` lines 141-167); the textual
substitution of the `vm:` marker only shapes the arguments of the spawned
copy process, which the model records by kind. -/
def scp_with_prefix (cfg : Config) (_vm_ip : String)
    (_src _dst : String) (succeeded : Bool) :
    Except CloudAgentError Unit × List SpawnKind :=
  match cfg.ssh_key with
  | none => (.error (.SshKeyNotFound "No SSH key configured"), [])
  | some _ =>
    if succeeded then (.ok (), [.scpProc])
    else (.error (.SshFailed "SCP failed"), [.scpProc])

/-- C9: with no SSH private key configured, each of the six remote-access
operations fails with the SSH-key-not-found error and spawns no
subprocess, whatever the target address, arguments and would-be subprocess
outcomes. -/
theorem ssh_ops_require_key (cfg : Config) (vm_ip : String)
    (h : cfg.ssh_key = none) :
    (∀ outcome, ssh_execute cfg vm_ip outcome
        = (.error (.SshKeyNotFound "No SSH key configured"), []))
    ∧ (∀ ok status, ssh_execute_streaming cfg vm_ip ok status
        = (.error (.SshKeyNotFound "No SSH key configured"), []))
    ∧ (∀ lp rp ok, copy_to_vm cfg vm_ip lp rp ok
        = (.error (.SshKeyNotFound "No SSH key configured"), []))
    ∧ (∀ rp lp ok, copy_from_vm cfg vm_ip rp lp ok
        = (.error (.SshKeyNotFound "No SSH key configured"), []))
    ∧ (∀ ok, interactive_session cfg vm_ip ok
        = (.error (.SshKeyNotFound "No SSH key configured"), []))
    ∧ (∀ src dst ok, scp_with_prefix cfg vm_ip src dst ok
        = (.error (.SshKeyNotFound "No SSH key configured"), [])) := by
  refine ⟨?_, ?_, ?_, ?_, ?_, ?_⟩ <;> intros <;>
    simp [ ssh_execute, ssh_execute_streaming, copy_to_vm, copy_from_vm,
           interactive_session, scp_with_prefix, h]

/-- Closed instantiation of the C9 theorem: the sample configuration has no
key, and a representative operation of each flavour fails with the key
error and an empty spawn list. -/
theorem ssh_ops_require_key_witness :
    sampleConfig.ssh_key = none
    ∧ ssh_execute sampleConfig "10.0.0.7" (.ok "hello")
        = (.error (.SshKeyNotFound "No SSH key configured"), [])
    ∧ copy_to_vm sampleConfig "10.0.0.7" "a.txt" "~/a.txt" true
        = (.error (.SshKeyNotFound "No SSH key configured"), [])
    ∧ scp_with_prefix sampleConfig "10.0.0.7" "vm:/workspace/x" "." true
        = (.error (.SshKeyNotFound "No SSH key configured"), []) :=
  ⟨rfl,
   (ssh_ops_require_key sampleConfig "10.0.0.7" rfl).1 (.ok "hello"),
   (ssh_ops_require_key sampleConfig "10.0.0.7" rfl).2.2.1 "a.txt" "~/a.txt" true,
   (ssh_ops_require_key sampleConfig "10.0.0.7" rfl).2.2.2.2.2 "vm:/workspace/x" "." true⟩

end CloudAgent
